import Mathlib

/-!
Verification of the NyaySetu legal chatbot pipeline: a shallow embedding of
`src/main.py` and the `src/scripts/` collaborators (retriever, corpus
indexer, voice input/output, voice orchestrator), with theorems settling the
specified behavioural properties.

Conventions: Python values that may be `None` are `Option`; a Python call
that may raise is `Except PyErr`; external collaborator behaviour (Whisper,
gTTS, the vector store, `answer_query` from `rag_pipeline.py`) enters as an
explicit parameter so every code path of the embedded functions is visible.
-/

set_option maxHeartbeats 1000000

namespace NyaySetu

/-! ### Python string helpers -/

/-- Strip `p`-satisfying elements from the front, then from the back:
the character-list semantics of Python `str.strip()`. -/
def stripBy {α : Type} (p : α → Bool) (l : List α) : List α :=
  ((l.dropWhile p).reverse.dropWhile p).reverse

/-- Python `s.strip()` (whitespace stripping on both ends). -/
def pyStrip (s : String) : String :=
  String.mk (stripBy Char.isWhitespace s.data)

/-- Python truthiness of an optional string: `None` and `""` are falsy. -/
def pyTruthy : Option String → Bool
  | none => false
  | some t => !t.isEmpty

theorem dropWhile_eq_self_of_head {α : Type} {p : α → Bool} :
    ∀ {l : List α}, (∀ c, l.head? = some c → p c = false) → l.dropWhile p = l
  | [], _ => rfl
  | a :: _, h => by simp [List.dropWhile_cons, h a rfl]

theorem dropWhile_idem {α : Type} (p : α → Bool) (l : List α) :
    (l.dropWhile p).dropWhile p = l.dropWhile p := by
  apply dropWhile_eq_self_of_head
  intro c hc
  have h := List.head?_dropWhile_not p l
  rw [hc] at h
  exact h

theorem pref_head_eq {α : Type} {w y : List α} (h : w <+: y) (hw : w ≠ []) :
    y.head? = w.head? := by
  obtain ⟨t, rfl⟩ := h
  cases w with
  | nil => exact absurd rfl hw
  | cons a w' => rfl

theorem stripBy_pref {α : Type} (p : α → Bool) (y : List α) :
    stripBy p y <+: y.dropWhile p := by
  obtain ⟨t, ht⟩ := List.dropWhile_suffix (l := (y.dropWhile p).reverse) p
  refine ⟨t.reverse, ?_⟩
  rw [stripBy, ← List.reverse_append, ht, List.reverse_reverse]

theorem stripBy_dropWhile_fix {α : Type} (p : α → Bool) (l : List α) :
    (stripBy p l).dropWhile p = stripBy p l := by
  apply dropWhile_eq_self_of_head
  intro c hc
  have hne : stripBy p l ≠ [] := by
    intro hnil
    rw [hnil] at hc
    cases hc
  have hh := pref_head_eq (stripBy_pref p l) hne
  have h := List.head?_dropWhile_not p l
  rw [hh, hc] at h
  exact h

theorem stripBy_of_fixes {α : Type} (p : α → Bool) (m : List α)
    (hA : m.dropWhile p = m) (hB : m.reverse.dropWhile p = m.reverse) :
    stripBy p m = m := by
  rw [stripBy, hA, hB, List.reverse_reverse]

theorem stripBy_idem {α : Type} (p : α → Bool) (l : List α) :
    stripBy p (stripBy p l) = stripBy p l := by
  refine stripBy_of_fixes p _ (stripBy_dropWhile_fix p l) ?_
  have h2 : (stripBy p l).reverse = (l.dropWhile p).reverse.dropWhile p := by
    rw [stripBy, List.reverse_reverse]
  rw [h2]
  exact dropWhile_idem p _

theorem pyStrip_idem (s : String) : pyStrip (pyStrip s) = pyStrip s := by
  show String.mk (stripBy _ (stripBy _ s.data)) = String.mk (stripBy _ s.data)
  rw [stripBy_idem]

/-! ### Exceptions -/

/-- A Python exception value, carrying its internal message / detail. -/
structure PyErr where
  msg : String
deriving DecidableEq

/-! ### Semantic Retriever (`src/scripts/retriever.py`) -/

/-- A chunk as returned by a vector-store search. -/
structure RetrievedChunk where
  id : String
  text : String
deriving DecidableEq

/-- Result ordering relation: the left result scores at least the right one
(descending similarity). -/
def scoreGE (a b : RetrievedChunk × ℚ) : Prop := b.2 ≤ a.2

instance : DecidableRel scoreGE :=
  fun a b => inferInstanceAs (Decidable (b.2 ≤ a.2))

instance : IsTotal (RetrievedChunk × ℚ) scoreGE :=
  ⟨fun a b => le_total b.2 a.2⟩

instance : IsTrans (RetrievedChunk × ℚ) scoreGE :=
  ⟨fun _ _ _ h1 h2 => le_trans h2 h1⟩

/-- Modelled from the spec: the vector store's nearest-neighbour search
(`Chroma` similarity search, external to this repository; `rag_pipeline.py`
is not under src/). Given the similarity score of every indexed chunk for
the query, rank all chunks by descending similarity and keep the best `k`;
an empty index yields an empty result, never an error (§4.4). -/
def similaritySearch (index : List (RetrievedChunk × ℚ)) (k : Nat) :
    List (RetrievedChunk × ℚ) :=
  (List.insertionSort scoreGE index).take k

/-- The retriever configuration built by `get_retriever`. -/
structure Retriever where
  collection_name : String
  k : Nat
deriving DecidableEq

/-- `get_retriever` (src/scripts/retriever.py): a retriever over the
`legal_knowledge` collection with `search_kwargs` of k = 3. -/
def get_retriever : Retriever :=
  { collection_name := "legal_knowledge", k := 3 }

/-- Retrieval with a retriever's configured `k` over the index's scored
chunks for one query. -/
def Retriever.retrieve (r : Retriever) (index : List (RetrievedChunk × ℚ)) :
    List (RetrievedChunk × ℚ) :=
  similaritySearch index r.k

/-! ### Orchestration boundary (`src/main.py`) -/

/-- The fixed apology reply of `safe_chatbot_call` (src/main.py). -/
def apologyReply : String :=
  "I apologize, but I\x27m temporarily unable to process your request. Please try again."

/-- `safe_chatbot_call` (src/main.py): run `answer_query(user_message)` under
try/except; `outcome` is that call's result (normal return or raised
exception), any exception is converted to the fixed apology reply. -/
def safe_chatbot_call (outcome : Except PyErr String) : String :=
  match outcome with
  | .ok reply => reply
  | .error _ => apologyReply

/-- C1: the Semantic Retriever returns at most `k` results with default
k = 3, ordered by non-increasing similarity score, and an empty index gives
an empty result sequence rather than an error. -/
theorem retrieve_topk_sorted (index : List (RetrievedChunk × ℚ)) :
    (get_retriever.retrieve index).length ≤ 3
    ∧ List.Sorted scoreGE (get_retriever.retrieve index)
    ∧ get_retriever.retrieve [] = []
    ∧ get_retriever.k = 3 := by
  refine ⟨?_, ?_, rfl, rfl⟩
  · exact List.length_take_le 3 _
  · exact List.Pairwise.sublist (List.take_sublist _ _)
      (List.sorted_insertionSort scoreGE index)

/-- C2: every exception raised inside `answer_query` is caught by
`safe_chatbot_call` and converted to the fixed apology reply; the reply on
failure is one constant string, independent of the exception's internal
message, so no raw error detail ever reaches the caller. -/
theorem safe_chatbot_call_fixed_apology :
    (∀ e : PyErr, safe_chatbot_call (.error e) = apologyReply)
    ∧ (∀ e₁ e₂ : PyErr,
        safe_chatbot_call (.error e₁) = safe_chatbot_call (.error e₂))
    ∧ (∀ r : String, safe_chatbot_call (.ok r) = r) :=
  ⟨fun _ => rfl, fun _ _ => rfl, fun _ => rfl⟩

/-! ### Voice input (`src/scripts/voice_input.py`) -/

/-- Behaviour of one `self.model.transcribe(audio_path)` call of the external
Whisper model: either the call raises, or it returns a result dict whose
`"text"` entry is `rawText` (an absent key is `none`; `result.get` defaults
it to `""`). -/
structure WhisperCall where
  raises : Bool
  rawText : Option String
deriving DecidableEq

/-- `VoiceInputProcessor.transcribe` (src/scripts/voice_input.py). `model` is
`self.model` (`none` when Whisper is unavailable); `whisper` gives the
behaviour of the underlying model call per audio path. Exceptions are caught
and converted to `none`. -/
def transcribe (model : Option Unit) (whisper : String → WhisperCall)
    (audio_path : String) : Option String :=
  match model with
  | none => none
  | some _ =>
    if (whisper audio_path).raises then none
    else
      let text := pyStrip ((whisper audio_path).rawText.getD "")
      if text.isEmpty then none else some text

/-! ### Voice output (`src/scripts/voice_output.py`) -/

/-- Behaviour of the environment during one `speak` call: whether
`gTTS(text).save(filepath)` raises, the saved file's existence and byte
size, and the `uuid` hex value used for the filename. -/
structure TTSCall where
  saveRaises : Bool
  fileOnDisk : Bool
  fileSize : Nat
  uuidHex : String
deriving DecidableEq

/-- Body of `VoiceOutputProcessor.speak` before the surrounding try/except;
`Except.error` marks a raised exception. -/
def speakBody (output_dir : String) (call : TTSCall) (_text : String) :
    Except PyErr (Option String) :=
  let filepath := output_dir ++ "/" ++ call.uuidHex ++ ".mp3"
  if call.saveRaises then .error ⟨"gTTS save failed"⟩
  else if !call.fileOnDisk || call.fileSize < 1000 then .ok none
  else .ok (some filepath)

/-- `VoiceOutputProcessor.speak` (src/scripts/voice_output.py): the body
wrapped in try/except, any exception converted to `None`. -/
def speak (output_dir : String) (call : TTSCall) (text : String) :
    Option String :=
  match speakBody output_dir call text with
  | .ok r => r
  | .error _ => none

/-! ### Voice orchestrator (`src/scripts/voice_chatbot.py`) -/

/-- The value of `VoiceChatbot.process`: reply text and optional audio path. -/
structure ProcessResult where
  text : String
  audio : Option String
deriving DecidableEq

/-- Step 1 of `VoiceChatbot.process`: resolve the input text. When the audio
path is truthy, a truthy transcription replaces the text input; otherwise
the text input stands. -/
def resolveInput (transcribeF : String → Option String)
    (text_input audio_path : Option String) : Option String :=
  match audio_path with
  | some path =>
    if path.isEmpty then text_input
    else
      match transcribeF path with
      | some t => if t.isEmpty then text_input else some t
      | none => text_input
  | none => text_input

/-- `VoiceChatbot.process` (src/scripts/voice_chatbot.py), instrumented with
the query passed to `answer_query`: the second component is `none` exactly
when the core pipeline is not invoked. `answer_query`, `transcribeF` and
`speakF` are the collaborator behaviours (`self.voice_input.transcribe`,
`self.voice_output.speak`). Python truthiness of the optional strings is
modelled by `pyTruthy`; audio is only generated when the input was audio. -/
def processT (answer_query : String → String)
    (transcribeF : String → Option String) (speakF : String → Option String)
    (text_input audio_path : Option String) :
    ProcessResult × Option String :=
  match resolveInput transcribeF text_input audio_path with
  | some q =>
    if q.isEmpty then (⟨"Unable to process input.", none⟩, none)
    else
      (⟨answer_query q,
        if pyTruthy audio_path then speakF (answer_query q) else none⟩,
       some q)
  | none => (⟨"Unable to process input.", none⟩, none)

/-- C10: `transcribe` always returns `None` or a non-empty string that is a
fixed point of stripping (no leading or trailing whitespace); it never
returns the empty string, and a raising model call yields `None`. -/
theorem transcribe_none_or_trimmed_nonempty (model : Option Unit)
    (whisper : String → WhisperCall) (p : String) :
    transcribe model whisper p = none
    ∨ ∃ s, transcribe model whisper p = some s
        ∧ s ≠ "" ∧ pyStrip s = s := by
  unfold transcribe
  cases model with
  | none => exact .inl rfl
  | some _ =>
    by_cases hr : (whisper p).raises
    · simp [hr]
    · by_cases ht : (pyStrip ((whisper p).rawText.getD "")).isEmpty
      · simp [hr, ht]
      · refine .inr ⟨pyStrip ((whisper p).rawText.getD ""), ?_, ?_, pyStrip_idem _⟩
        · simp [hr, ht]
        · simpa [String.isEmpty_iff] using ht

/-- C8: `speak` returns either the constructed audio file path or `None`:
a raised TTS exception is converted to `None` (never propagated), and a
returned path is exactly the file written under the output directory. -/
theorem speak_returns_path_or_none (d : String) (call : TTSCall) (t : String) :
    (speak d call t = none
      ∨ speak d call t = some (d ++ "/" ++ call.uuidHex ++ ".mp3"))
    ∧ speak d { call with saveRaises := true } t = none := by
  constructor
  · by_cases h1 : call.saveRaises
    · simp [speak, speakBody, h1]
    · by_cases h2 : call.fileOnDisk
      · by_cases h3 : call.fileSize < 1000
        · simp [speak, speakBody, h1, h2, h3]
        · simp [speak, speakBody, h1, h2, h3]
      · simp [speak, speakBody, h1, h2]
  · simp [speak, speakBody]

/-! ### Text chat endpoint (`src/main.py`) -/

/-- `ChatRequest` (src/main.py): optional session id plus message. -/
structure ChatRequest where
  session_id : Option String
  message : String
deriving DecidableEq

/-- `ChatResponse` (src/main.py). -/
structure ChatResponse where
  reply : String
  session_id : String
  confidence : Option ℚ
deriving DecidableEq

/-- An HTTP error raised by an endpoint (`HTTPException`). -/
structure HTTPError where
  status_code : Nat
  detail : String
deriving DecidableEq

/-- The `chat` endpoint (src/main.py), instrumented with the query passed to
the core pipeline: the second component is `none` exactly when
`answer_query` is never invoked. `answer_query` gives the core pipeline's
outcome per query (it is invoked through `safe_chatbot_call`); `gen_uuid` is
the session id generated when the request carries a falsy one. -/
def chat (answer_query : String → Except PyErr String) (gen_uuid : String)
    (req : ChatRequest) : Except HTTPError ChatResponse × Option String :=
  let session_id :=
    if pyTruthy req.session_id then req.session_id.getD "" else gen_uuid
  if req.message.isEmpty || (pyStrip req.message).isEmpty then
    (.error ⟨400, "Message cannot be empty"⟩, none)
  else
    let q := pyStrip req.message
    (.ok ⟨safe_chatbot_call (answer_query q), session_id, none⟩, some q)

/-- The reply text of a `chat` outcome (`none` when the endpoint errored). -/
def replyOf (r : Except HTTPError ChatResponse × Option String) :
    Option String :=
  match r.1 with
  | .ok resp => some resp.reply
  | .error _ => none

/-- C4 counterexample: an audio input whose transcription fails does not
always short-circuit. Called with both a text input and an audio path, and a
transcription that fails, `process` still invokes `answer_query` (on the
text input) and returns its reply, not the fixed "unable to process input"
response. -/
theorem process_invokes_core_despite_failed_transcription :
    (processT (fun q => "ANS:" ++ q) (fun _ => none) (fun _ => none)
        (some "What is an FIR?") (some "clip.wav")).2 = some "What is an FIR?"
    ∧ (processT (fun q => "ANS:" ++ q) (fun _ => none) (fun _ => none)
        (some "What is an FIR?") (some "clip.wav")).1.text
        ≠ "Unable to process input." := by
  constructor
  · rfl
  · decide

/-- C4 amended: when the orchestrator is invoked with an audio input only
(no text input) and transcription yields no usable text (`None` or empty),
`answer_query` is never invoked and the fixed "Unable to process input."
response is returned with no audio. -/
theorem process_audio_only_failed_transcription_short_circuits
    (answer_query : String → String)
    (transcribeF : String → Option String) (speakF : String → Option String)
    (path : String) (h : pyTruthy (transcribeF path) = false) :
    processT answer_query transcribeF speakF none (some path)
      = (⟨"Unable to process input.", none⟩, none) := by
  have hres : resolveInput transcribeF none (some path) = none := by
    unfold resolveInput
    by_cases hp : path.isEmpty
    · simp [hp]
    · cases htr : transcribeF path with
      | none => simp [hp, htr]
      | some t =>
        rw [htr] at h
        have ht : t.isEmpty := by
          by_contra hne
          simp [pyTruthy, hne] at h
        simp [hp, htr, ht]
  unfold processT
  rw [hres]

/-- Witness for the C4 amended theorem at a concrete failing transcription. -/
theorem process_audio_only_short_circuit_witness :
    processT (fun q => "ANS:" ++ q) (fun _ => none) (fun _ => none)
      none (some "clip.wav")
      = (⟨"Unable to process input.", none⟩, none) :=
  process_audio_only_failed_transcription_short_circuits
    (fun q => "ANS:" ++ q) (fun _ => none) (fun _ => none) "clip.wav" rfl

/-- C5 counterexample: a whitespace-only (non-empty) text input passes the
voice orchestrator's `if not text_input` guard, so `answer_query` is invoked
with the whitespace-only query `" "` — which `pyStrip` shows is
whitespace-only. -/
theorem process_passes_whitespace_query_to_core :
    (processT (fun q => "GOT:" ++ q) (fun _ => none) (fun _ => none)
        (some " ") none).2 = some " "
    ∧ pyStrip " " = "" := by
  constructor
  · rfl
  · decide

/-- C5 amended: the text chat endpoint rejects empty or whitespace-only
messages before the pipeline and only ever invokes `answer_query` on a
non-empty, already-stripped query; the voice orchestrator never invokes
`answer_query` with the exactly-empty query, but it does pass a
whitespace-only non-empty text input straight through to `answer_query`. -/
theorem blank_input_handling :
    (∀ (aqc : String → Except PyErr String) (gen : String) (req : ChatRequest),
        (pyStrip req.message).isEmpty = true → (chat aqc gen req).2 = none)
    ∧ (∀ (aqc : String → Except PyErr String) (gen : String)
        (req : ChatRequest) (q : String),
        (chat aqc gen req).2 = some q → q ≠ "" ∧ pyStrip q = q)
    ∧ (∀ (aq : String → String) (tr sp : String → Option String)
        (ti ap : Option String) (q : String),
        (processT aq tr sp ti ap).2 = some q → q ≠ "")
    ∧ (processT (fun q => "GOT:" ++ q) (fun _ => none) (fun _ => none)
        (some "   ") none).2 = some "   " := by
  refine ⟨?_, ?_, ?_, rfl⟩
  · intro aqc gen req hblank
    unfold chat
    simp [hblank]
  · intro aqc gen req q hq
    unfold chat at hq
    by_cases hb : req.message.isEmpty || (pyStrip req.message).isEmpty
    · simp [hb] at hq
    · simp only [hb, if_false, Bool.false_eq_true] at hq
      have hqe : q = pyStrip req.message := by
        cases hq
        rfl
      subst hqe
      have hne : ¬(pyStrip req.message).isEmpty := by
        intro hc
        simp [hc] at hb
      constructor
      · simpa [String.isEmpty_iff] using hne
      · exact pyStrip_idem _
  · intro aq tr sp ti ap q hq
    unfold processT at hq
    cases hr : resolveInput tr ti ap with
    | none => rw [hr] at hq; cases hq
    | some t =>
      rw [hr] at hq
      by_cases ht : t.isEmpty
      · simp [ht] at hq
      · simp only [ht, if_false, Bool.false_eq_true] at hq
        have : t = q := by
          cases hq
          rfl
        subst this
        simpa [String.isEmpty_iff] using ht

/-- Witness for the blank-input theorem at a concrete whitespace-only
request: the text endpoint never hands it to the core pipeline. -/
theorem blank_input_handling_witness :
    (chat (fun q => .ok ("R:" ++ q)) "uuid-1" ⟨none, "   "⟩).2 = none :=
  blank_input_handling.1 (fun q => .ok ("R:" ++ q)) "uuid-1" ⟨none, "   "⟩
    (by decide)

/-- C9: the reply of the `chat` endpoint is independent of the session
identifier: for any message and any two session ids (present, absent or
empty), the reply text and the query passed to the core pipeline coincide.
The embedding is a pure function of the request and the collaborator
outcomes — no session state is read or stored between calls. -/
theorem chat_reply_session_independent
    (aqc : String → Except PyErr String) (gen m : String)
    (s₁ s₂ : Option String) :
    replyOf (chat aqc gen ⟨s₁, m⟩) = replyOf (chat aqc gen ⟨s₂, m⟩)
    ∧ (chat aqc gen ⟨s₁, m⟩).2 = (chat aqc gen ⟨s₂, m⟩).2 := by
  by_cases hb : m.isEmpty || (pyStrip m).isEmpty
  · constructor <;> simp [chat, replyOf, hb]
  · constructor <;> simp [chat, replyOf, hb]

/-! ### Startup lifecycle and health endpoint (`src/main.py`) -/

/-- Outcomes of the component initialisations attempted during `lifespan`:
whether the Whisper model loads inside `VoiceInputProcessor.__init__`,
whether each processor constructor raises, and whether the
`answer_query("test initialization")` probe of the RAG pipeline (embedding
model and vector index) succeeds. -/
structure StartupOutcomes where
  whisperLoads : Bool
  voiceInputCtorRaises : Bool
  voiceOutputCtorRaises : Bool
  ragInitOk : Bool
deriving DecidableEq

/-- `VoiceInputProcessor` state: `self.model` is `none` when Whisper failed
to load (the constructor catches that failure itself). -/
structure VoiceInputProcessor where
  model : Option Unit
deriving DecidableEq

/-- The module-level globals set by `lifespan` (src/main.py). -/
structure AppState where
  voice_input_processor : Option VoiceInputProcessor
  voice_output_processor : Option Unit
deriving DecidableEq

/-- `lifespan` (src/main.py): initialise both voice processors under
try/except (a failure leaves the global at `None`), then probe the RAG
pipeline under try/except — the probe's outcome is only printed and has no
effect on any state. -/
def lifespan (o : StartupOutcomes) : AppState :=
  { voice_input_processor :=
      if o.voiceInputCtorRaises then none
      else some ⟨if o.whisperLoads then some () else none⟩
    voice_output_processor :=
      if o.voiceOutputCtorRaises then none else some () }

/-- `HealthResponse` (src/main.py). -/
structure HealthResponse where
  status : String
  voice_input_available : Bool
  voice_output_available : Bool
deriving DecidableEq

/-- `health_check` (src/main.py): status is the literal `"ok"`; the two
flags report voice processor presence and the Whisper model's presence. -/
def health_check (st : AppState) : HealthResponse :=
  { status := "ok"
    voice_input_available :=
      match st.voice_input_processor with
      | some p => p.model.isSome
      | none => false
    voice_output_available := st.voice_output_processor.isSome }

/-- C3 counterexample: at a startup where the RAG pipeline probe failed
(embedding model / vector index unavailable) and the speech model failed to
load, the health endpoint still reports status `"ok"` — the service reports
itself operational despite the fatal startup failure. -/
theorem health_reports_ok_after_startup_failure :
    (health_check (lifespan
        ⟨false, false, false, false⟩)).status = "ok"
    ∧ (⟨false, false, false, false⟩ : StartupOutcomes).ragInitOk = false := by
  constructor
  · rfl
  · rfl

/-- C3 amended: the health endpoint reports status `"ok"` unconditionally.
Startup failures of the voice components only lower the two availability
flags, and the RAG pipeline's startup failure has no effect on the health
response at all. -/
theorem health_status_unconditionally_ok (o : StartupOutcomes) :
    (health_check (lifespan o)).status = "ok"
    ∧ (health_check (lifespan o)).voice_input_available
        = (!o.voiceInputCtorRaises && o.whisperLoads)
    ∧ (health_check (lifespan o)).voice_output_available
        = !o.voiceOutputCtorRaises
    ∧ health_check (lifespan o)
        = health_check (lifespan { o with ragInitOk := !o.ragInitOk }) := by
  obtain ⟨w, vi, vo, r⟩ := o
  cases w <;> cases vi <;> cases vo <;>
    simp [health_check, lifespan]

/-! ### Corpus Indexer (`src/scripts/build_vectordb.py`) -/

/-- A source legal document: stable identifier and raw text body (§3). -/
structure SrcDocument where
  id : String
  text : String
deriving DecidableEq

/-- Modelled from the spec: the fixed target chunk length and step of the
deterministic splitting rule (`load_documents.py` is not present under
src/); the exact sizes are not observable, the step leaves a fixed overlap
between consecutive chunks (§4.1). -/
def CHUNK_LEN : Nat := 500

/-- Chunk step: `CHUNK_LEN` minus the fixed overlap. -/
def CHUNK_STEP : Nat := 450

/-- A chunk written to the vector index (§3). -/
structure Chunk where
  id : String
  docId : String
  text : String
  embedding : List ℚ
deriving DecidableEq

/-- Modelled from the spec: split one document into chunks at offsets
0, STEP, 2·STEP, …, each of the fixed target length; the chunk identifier
is derived deterministically from the document identifier and the offset
(§3, §4.1). Every document yields at least one chunk. `embed` is the
embedding model applied to each chunk text. -/
def splitDocument (embed : String → List ℚ) (d : SrcDocument) : List Chunk :=
  let n := d.text.length
  let count := max 1 ((n + CHUNK_STEP - 1) / CHUNK_STEP)
  (List.range count).map fun i =>
    let off := i * CHUNK_STEP
    let body := String.mk ((d.text.data.drop off).take CHUNK_LEN)
    { id := d.id ++ "#" ++ toString off
      docId := d.id
      text := body
      embedding := embed body }

/-- The indexer's report: the chunk identifiers, chunk texts and chunk count
written to the `legal_knowledge` collection. -/
structure IndexBuildReport where
  chunkIds : List String
  chunkTexts : List String
  chunkCount : Nat
deriving DecidableEq

/-- `build_vectordb` (src/scripts/build_vectordb.py): extend `all_docs` with
the documents of every data file in the fixed `DATA_FILES` order, split each
document into chunks, embed and persist them. `embed` is the run's
embedding-model handle — the only run-dependent ingredient of a build. -/
def build_vectordb (embed : String → List ℚ)
    (sources : List (List SrcDocument)) : IndexBuildReport :=
  let all_docs := sources.flatten
  let chunks := (all_docs.map (splitDocument embed)).flatten
  { chunkIds := chunks.map (·.id)
    chunkTexts := chunks.map (·.text)
    chunkCount := chunks.length }

theorem splitDocument_ids (e₁ e₂ : String → List ℚ) (d : SrcDocument) :
    (splitDocument e₁ d).map (·.id) = (splitDocument e₂ d).map (·.id) := by
  simp [splitDocument]

theorem splitDocument_texts (e₁ e₂ : String → List ℚ) (d : SrcDocument) :
    (splitDocument e₁ d).map (·.text) = (splitDocument e₂ d).map (·.text) := by
  simp [splitDocument]

theorem splitDocument_length (e₁ e₂ : String → List ℚ) (d : SrcDocument) :
    (splitDocument e₁ d).length = (splitDocument e₂ d).length := by
  simp [splitDocument]

theorem chunkData_embed_ind (e₁ e₂ : String → List ℚ) :
    ∀ docs : List SrcDocument,
      ((docs.map (splitDocument e₁)).flatten.map (·.id)
        = (docs.map (splitDocument e₂)).flatten.map (·.id))
      ∧ ((docs.map (splitDocument e₁)).flatten.map (·.text)
        = (docs.map (splitDocument e₂)).flatten.map (·.text))
      ∧ ((docs.map (splitDocument e₁)).flatten.length
        = (docs.map (splitDocument e₂)).flatten.length)
  | [] => ⟨rfl, rfl, rfl⟩
  | d :: rest => by
    obtain ⟨h1, h2, h3⟩ := chunkData_embed_ind e₁ e₂ rest
    refine ⟨?_, ?_, ?_⟩ <;>
      simp only [List.map_cons, List.flatten_cons, List.map_append,
        List.length_append]
    · rw [h1, splitDocument_ids e₁ e₂]
    · rw [h2, splitDocument_texts e₁ e₂]
    · rw [h3, splitDocument_length e₁ e₂]

/-- C6: re-running the Corpus Indexer on unchanged source documents is
idempotent: the chunk identifiers, the chunk texts (byte-identical chunk
boundaries) and the chunk count agree between any two runs — they depend
only on the documents, not on the run's embedding-model handle. -/
theorem build_vectordb_idempotent (e₁ e₂ : String → List ℚ)
    (sources : List (List SrcDocument)) :
    (build_vectordb e₁ sources).chunkIds = (build_vectordb e₂ sources).chunkIds
    ∧ (build_vectordb e₁ sources).chunkTexts
        = (build_vectordb e₂ sources).chunkTexts
    ∧ (build_vectordb e₁ sources).chunkCount
        = (build_vectordb e₂ sources).chunkCount := by
  obtain ⟨h1, h2, h3⟩ := chunkData_embed_ind e₁ e₂ sources.flatten
  exact ⟨h1, h2, h3⟩

end NyaySetu
